import Mathlib

/-!
Shallow embedding of `ideamans/go-exif-remove-thumbnail`
(`exifremovethumbnail.go`), together with theorems settling the frozen
claims about it.

Bytes are modelled as `List Nat`; every definition below is translated
from the Go source.  Machine integers (`uint16`, `uint32`, `int64`) are
modelled as `Nat`/`Int` with explicit `% 2^w` where Go would wrap.
The scanner loop of `ExifRemoveThumbnailBytes` is translated with an
explicit fuel parameter (`scanLoopF`); `scanLoop` instantiates the fuel
with `input.length + 1`, which is proved sufficient
(`scanLoopF_fuel_irrel`), so the fuel is a termination device only.
-/

set_option maxRecDepth 16384

namespace ExifRT

/-- Big-endian 16-bit read of two bytes (`binary.BigEndian.Uint16`). -/
def be16 (a b : Nat) : Nat := a * 256 + b

/-- 16-bit read honouring the selected endianness (the `readUint16`
closure in `removeThumbnailFromExif`). -/
def readU16 (little : Bool) (b0 b1 : Nat) : Nat :=
  if little then b1 * 256 + b0 else b0 * 256 + b1

/-- 32-bit read honouring the selected endianness (the `readUint32`
closure in `removeThumbnailFromExif`); `b0` is the byte at the lowest
address. -/
def readU32 (little : Bool) (b0 b1 b2 b3 : Nat) : Nat :=
  if little then ((b3 * 256 + b2) * 256 + b1) * 256 + b0
  else ((b0 * 256 + b1) * 256 + b2) * 256 + b3

/-- The two bytes `binary.Write(output, binary.BigEndian, v)` emits for a
`uint16` value `v`. -/
def putU16be (v : Nat) : List Nat := [v / 256 % 256, v % 256]

/-- The four bytes `PutUint32` stores at increasing addresses. -/
def putU32 (little : Bool) (v : Nat) : List Nat :=
  if little then [v % 256, v / 256 % 256, v / 65536 % 256, v / 16777216 % 256]
  else [v / 16777216 % 256, v / 65536 % 256, v / 256 % 256, v % 256]

/-- Overwrite `data[i .. i + ws.length)` with `ws` (models an in-place
`PutUint32` on a copy of the slice). -/
def writeBytesAt (data : List Nat) (i : Nat) (ws : List Nat) : List Nat :=
  data.take i ++ ws ++ data.drop (i + ws.length)

/-- ASCII bytes of the EXIF signature `"Exif\x00\x00"`. -/
def exifSig : List Nat := [69, 120, 105, 102, 0, 0]

/-- All elements are byte values. -/
def bytesOk (l : List Nat) : Bool := l.all (fun b => b < 256)

/-- Models `littleEndian := byteOrder == 0x4949` where
`byteOrder := binary.BigEndian.Uint16(exifData[6:8])`. -/
def tiffLittle (exifData : List Nat) : Bool :=
  be16 (exifData.getD 6 0) (exifData.getD 7 0) == 0x4949

/-- Models `ifd0Pos := pos + int(readUint32(exifData[pos+4 : pos+8]))` with
`pos = 6`. -/
def ifd0PosOf (d : List Nat) : Nat :=
  6 + readU32 (tiffLittle d) (d.getD 10 0) (d.getD 11 0) (d.getD 12 0) (d.getD 13 0)

/-- Models `entryCount := int(readUint16(exifData[ifd0Pos : ifd0Pos+2]))`. -/
def entryCountOf (d : List Nat) : Nat :=
  readU16 (tiffLittle d) (d.getD (ifd0PosOf d) 0) (d.getD (ifd0PosOf d + 1) 0)

/-- Models `ifd1OffsetPos := ifd0Pos + 2 + entryCount*12`. -/
def ifd1OffsetPosOf (d : List Nat) : Nat :=
  ifd0PosOf d + 2 + entryCountOf d * 12

/-- Models `ifd1Offset := int(readUint32(exifData[ifd1OffsetPos : ifd1OffsetPos+4]))`. -/
def ifd1OffsetOf (d : List Nat) : Nat :=
  readU32 (tiffLittle d) (d.getD (ifd1OffsetPosOf d) 0) (d.getD (ifd1OffsetPosOf d + 1) 0)
    (d.getD (ifd1OffsetPosOf d + 2) 0) (d.getD (ifd1OffsetPosOf d + 3) 0)

/-- Result triple of `removeThumbnailFromExif` (new payload, hadThumb,
thumbSize); `thumbSize` is Go `int64`, hence `Int`. -/
structure StripOut where
  payload : List Nat
  hadThumb : Bool
  thumbSize : Int
deriving DecidableEq

/-- The function `removeThumbnailFromExif` from `exifremovethumbnail.go`, translated
clause by clause. -/
def removeThumbnailFromExif (exifData : List Nat) : Except String StripOut :=
  if exifData.length < 6 ∨ exifData.take 6 ≠ exifSig then
    .error "invalid EXIF header"
  else if exifData.length < 6 + 8 then
    .error "invalid TIFF header"
  else
    let littleEndian := tiffLittle exifData
    let ifd0Pos := ifd0PosOf exifData
    if exifData.length < ifd0Pos + 2 then
      .error "invalid IFD0"
    else
      let ifd1OffsetPos := ifd1OffsetPosOf exifData
      if exifData.length < ifd1OffsetPos + 4 then
        .error "invalid IFD1 offset"
      else
        let ifd1Offset := ifd1OffsetOf exifData
        if ifd1Offset = 0 then
          .ok ⟨exifData, false, 0⟩
        else
          let thumbStart := 6 + ifd1Offset
          let thumbSize : Int := (exifData.length : Int) - (thumbStart : Int)
          let result := writeBytesAt exifData ifd1OffsetPos (putU32 littleEndian 0)
          let result2 := if thumbStart < result.length then result.take thumbStart else result
          .ok ⟨result2, true, thumbSize⟩

/-- Go error values: `&FormatError{...}` versus a plain `fmt.Errorf`. -/
inductive GoErr where
  | format (msg : String)
  | generic (msg : String)
deriving DecidableEq

/-- State produced by the scanner loop: emitted bytes after the SOI
marker, `foundThumbnail`, and `thumbnailSize`. -/
structure ScanOut where
  out : List Nat
  found : Bool
  tsize : Int
deriving DecidableEq

/-- The `for` loop of `ExifRemoveThumbnailBytes`, with explicit fuel.
`input` is the part of the reader not yet consumed.  Each case mirrors
the Go control flow: `io.EOF` on the marker read breaks the loop, a
1-byte remainder makes `binary.Read` return `io.ErrUnexpectedEOF`
(an error, not a break), and segment payload length is
`uint16(segmentLength - 2)`, i.e. `(L + 65534) % 65536`. -/
def scanLoopF : Nat → List Nat → Except GoErr ScanOut
  | 0, _ => .error (.generic "out of fuel")
  | _ + 1, [] => .ok ⟨[], false, 0⟩
  | _ + 1, [_] => .error (.generic "failed to read marker: unexpected EOF")
  | fuel + 1, m1 :: m2 :: rest =>
    let marker := be16 m1 m2 % 65536
    if marker &&& 0xFF00 ≠ 0xFF00 then .error (.format "invalid JPEG marker")
    else if marker = 0xFFDA then .ok ⟨putU16be marker ++ rest, false, 0⟩
    else
      match rest with
      | [] => .error (.generic "failed to read segment length: EOF")
      | [_] => .error (.generic "failed to read segment length: unexpected EOF")
      | l1 :: l2 :: rest2 =>
        let segmentLength := be16 l1 l2 % 65536
        let payloadLen := (segmentLength + 65534) % 65536
        if rest2.length < payloadLen then
          .error (.generic (if rest2.isEmpty then "failed to read segment data: EOF"
                            else "failed to read segment data: unexpected EOF"))
        else
          let segmentData := rest2.take payloadLen
          let rest3 := rest2.drop payloadLen
          if marker = 0xFFE1 ∧ segmentData.length > 6 ∧ segmentData.take 6 = exifSig then
            match removeThumbnailFromExif segmentData with
            | .error e => .error (.format ("failed to remove EXIF thumbnail: " ++ e))
            | .ok s =>
              match scanLoopF fuel rest3 with
              | .error e => .error e
              | .ok o =>
                .ok ⟨putU16be marker ++ putU16be ((s.payload.length + 2) % 65536) ++
                       s.payload ++ o.out,
                     s.hadThumb || o.found,
                     if o.found then o.tsize else if s.hadThumb then s.thumbSize else 0⟩
          else
            match scanLoopF fuel rest3 with
            | .error e => .error e
            | .ok o =>
              .ok ⟨putU16be marker ++ putU16be segmentLength ++ segmentData ++ o.out,
                   o.found, o.tsize⟩

/-- The scanner loop at its canonical fuel. -/
def scanLoop (input : List Nat) : Except GoErr ScanOut :=
  scanLoopF (input.length + 1) input

/-- Final result record of `ExifRemoveThumbnailBytes` (sizes are Go
`int64`). -/
structure RTResult where
  hadThumbnail : Bool
  beforeSize : Int
  afterSize : Int
  thumbnailSize : Int
deriving DecidableEq

/-- The function `ExifRemoveThumbnailBytes` from `exifremovethumbnail.go`: SOI check,
scanner loop, and result assembly. -/
def ExifRemoveThumbnailBytes (inputData : List Nat) :
    Except GoErr (List Nat × RTResult) :=
  let beforeSize : Int := inputData.length
  if inputData.length < 2 ∨ be16 (inputData.getD 0 0) (inputData.getD 1 0) ≠ 0xFFD8 then
    .error (.format "not a valid JPEG file")
  else
    match scanLoop (inputData.drop 2) with
    | .error e => .error e
    | .ok o =>
      let outputData := inputData.take 2 ++ o.out
      .ok (outputData, ⟨o.found, beforeSize, (outputData.length : Int), o.tsize⟩)

/-! Structured runs of thumbnail-free segments -/

/-- A run of complete, well-formed segments none of which carries a
thumbnail: plain segments (not routed to the stripper) and EXIF
segments whose IFD1 pointer is 0 (the stripper returns them
unchanged). -/
inductive NoThumbSegs : List Nat → Prop where
  | nil : NoThumbSegs []
  | plain (m2 l1 l2 : Nat) (payload rest : List Nat) :
      m2 < 256 → m2 ≠ 218 → l1 < 256 → l2 < 256 →
      payload.length = (be16 l1 l2 + 65534) % 65536 →
      ¬(65280 + m2 = 0xFFE1 ∧ payload.length > 6 ∧ payload.take 6 = exifSig) →
      NoThumbSegs rest →
      NoThumbSegs (255 :: m2 :: l1 :: l2 :: (payload ++ rest))
  | exif (l1 l2 : Nat) (payload rest : List Nat) :
      l1 < 256 → l2 < 256 →
      payload.length = (be16 l1 l2 + 65534) % 65536 →
      payload.length > 6 → payload.take 6 = exifSig →
      removeThumbnailFromExif payload = .ok ⟨payload, false, 0⟩ →
      NoThumbSegs rest →
      NoThumbSegs (255 :: 225 :: l1 :: l2 :: (payload ++ rest))

/-- End of the scan: either clean end-of-input or a start-of-scan
marker followed by arbitrary trailing bytes. -/
inductive ScanTail : List Nat → Prop where
  | eof : ScanTail []
  | sos (rest : List Nat) : ScanTail (255 :: 218 :: rest)


/-- Frame relation between the scanner's input (after SOI) and its
output: non-EXIF segments are copied verbatim (marker, original length
field, payload), the start-of-scan marker and everything after it is
copied verbatim, and only EXIF-routed segments are replaced by their
restripped form. -/
inductive FrameRel : List Nat → List Nat → Prop where
  | nil : FrameRel [] []
  | sos (rest : List Nat) : FrameRel (255 :: 218 :: rest) (255 :: 218 :: rest)
  | plain (m2 l1 l2 : Nat) (payload inRest outRest : List Nat) :
      m2 ≠ 218 →
      payload.length = (be16 l1 l2 % 65536 + 65534) % 65536 →
      ¬(65280 + m2 = 0xFFE1 ∧ payload.length > 6 ∧ payload.take 6 = exifSig) →
      FrameRel inRest outRest →
      FrameRel (255 :: m2 :: l1 :: l2 :: (payload ++ inRest))
               (255 :: m2 :: l1 :: l2 :: (payload ++ outRest))
  | exif (l1 l2 : Nat) (payload inRest outRest : List Nat) (s : StripOut) :
      payload.length = (be16 l1 l2 % 65536 + 65534) % 65536 →
      payload.length > 6 → payload.take 6 = exifSig →
      removeThumbnailFromExif payload = .ok s →
      FrameRel inRest outRest →
      FrameRel (255 :: 225 :: l1 :: l2 :: (payload ++ inRest))
               (255 :: 225 :: (putU16be ((s.payload.length + 2) % 65536) ++
                  (s.payload ++ outRest)))

/-! Unfolding lemmas for the scanner loop -/

theorem scanLoopF_zero (l : List Nat) :
    scanLoopF 0 l = .error (.generic "out of fuel") := rfl

theorem scanLoopF_nil (f : Nat) : scanLoopF (f + 1) [] = .ok ⟨[], false, 0⟩ := rfl

theorem scanLoopF_one (f b : Nat) :
    scanLoopF (f + 1) [b] =
      .error (.generic "failed to read marker: unexpected EOF") := rfl

theorem scanLoopF_cons (fuel m1 m2 : Nat) (rest : List Nat) :
    scanLoopF (fuel + 1) (m1 :: m2 :: rest) =
    (let marker := be16 m1 m2 % 65536
     if marker &&& 0xFF00 ≠ 0xFF00 then .error (.format "invalid JPEG marker")
     else if marker = 0xFFDA then .ok ⟨putU16be marker ++ rest, false, 0⟩
     else
       match rest with
       | [] => .error (.generic "failed to read segment length: EOF")
       | [_] => .error (.generic "failed to read segment length: unexpected EOF")
       | l1 :: l2 :: rest2 =>
         let segmentLength := be16 l1 l2 % 65536
         let payloadLen := (segmentLength + 65534) % 65536
         if rest2.length < payloadLen then
           .error (.generic (if rest2.isEmpty then "failed to read segment data: EOF"
                             else "failed to read segment data: unexpected EOF"))
         else
           let segmentData := rest2.take payloadLen
           let rest3 := rest2.drop payloadLen
           if marker = 0xFFE1 ∧ segmentData.length > 6 ∧ segmentData.take 6 = exifSig then
             match removeThumbnailFromExif segmentData with
             | .error e => .error (.format ("failed to remove EXIF thumbnail: " ++ e))
             | .ok s =>
               match scanLoopF fuel rest3 with
               | .error e => .error e
               | .ok o =>
                 .ok ⟨putU16be marker ++ putU16be ((s.payload.length + 2) % 65536) ++
                        s.payload ++ o.out,
                      s.hadThumb || o.found,
                      if o.found then o.tsize else if s.hadThumb then s.thumbSize else 0⟩
           else
             match scanLoopF fuel rest3 with
             | .error e => .error e
             | .ok o =>
               .ok ⟨putU16be marker ++ putU16be segmentLength ++ segmentData ++ o.out,
                    o.found, o.tsize⟩) := rfl

/-- The fuel of `scanLoopF` is irrelevant as soon as it exceeds the
length of the remaining input, so `scanLoop`'s canonical fuel faithfully
models the unbounded Go loop. -/
theorem scanLoopF_fuel_irrel : ∀ f g l, l.length < f → l.length < g →
    scanLoopF f l = scanLoopF g l := by
  intro f
  induction f with
  | zero => intro g l hf hg; omega
  | succ f ih =>
    intro g l hf hg
    cases g with
    | zero => omega
    | succ g =>
      match l with
      | [] => rfl
      | [b] => rfl
      | m1 :: m2 :: rest =>
        rw [scanLoopF_cons, scanLoopF_cons]
        dsimp only
        split
        · rfl
        · split
          · rfl
          · rcases rest with _ | ⟨l1, _ | ⟨l2, rest2⟩⟩
            · rfl
            · rfl
            · dsimp only
              split
              · rfl
              · rw [ih g (rest2.drop ((be16 l1 l2 % 65536 + 65534) % 65536))
                    (by simp only [List.length_drop, List.length_cons] at hf ⊢; omega)
                    (by simp only [List.length_drop, List.length_cons] at hg ⊢; omega)]

theorem scanLoop_eq_F (f : Nat) (l : List Nat) (h : l.length < f) :
    scanLoop l = scanLoopF f l :=
  scanLoopF_fuel_irrel _ _ _ (Nat.lt_succ_self _) h

/-! Arithmetic helpers for marker bytes -/

theorem band_mul256 (m1 m2 : Nat) (h1 : m1 < 256) (h2 : m2 < 256) :
    (m1 * 256 + m2) &&& 65280 = m1 * 256 := by
  apply Nat.eq_of_testBit_eq
  intro i
  rw [Nat.testBit_and]
  have e1 : m1 * 256 + m2 = 2 ^ 8 * m1 + m2 := by ring
  have e2 : (65280 : Nat) = 2 ^ 8 * 255 + 0 := by norm_num
  have e3 : m1 * 256 = 2 ^ 8 * m1 + 0 := by ring
  rw [e1, e2, e3]
  rw [Nat.testBit_mul_pow_two_add _ (by omega : m2 < 2 ^ 8),
      Nat.testBit_mul_pow_two_add _ (by omega : (0:Nat) < 2 ^ 8),
      Nat.testBit_mul_pow_two_add _ (by omega : (0:Nat) < 2 ^ 8)]
  by_cases hi : i < 8
  · simp [hi]
  · simp only [hi, if_false]
    by_cases hj : i - 8 < 8
    · have h255 : (255 : Nat) = 2 ^ 8 - 1 := by norm_num
      rw [h255, Nat.testBit_two_pow_sub_one]
      simp [hj]
    · have hpow : (256 : Nat) ≤ 2 ^ (i - 8) := by
        calc (256 : Nat) = 2 ^ 8 := by norm_num
        _ ≤ 2 ^ (i - 8) := Nat.pow_le_pow_right (by norm_num) (by omega)
      have hm1 : m1.testBit (i - 8) = false :=
        Nat.testBit_lt_two_pow (by omega)
      simp [hm1]

theorem band_ff00 (m2 : Nat) (h : m2 < 256) : (65280 + m2) &&& 65280 = 65280 := by
  have hb := band_mul256 255 m2 (by omega) h
  have e : 255 * 256 + m2 = 65280 + m2 := by norm_num
  rw [e] at hb
  rw [hb]

/-- The marker check `marker & 0xFF00 == 0xFF00` pins the high byte to
255 for byte-valued inputs. -/
theorem marker_high_byte (m1 m2 : Nat) (h1 : m1 < 256) (h2 : m2 < 256)
    (h : (be16 m1 m2 % 65536) &&& 65280 = 65280) : m1 = 255 := by
  unfold be16 at h
  rw [Nat.mod_eq_of_lt (by omega)] at h
  have hb := band_mul256 m1 m2 h1 h2
  omega

theorem be16_marker (m2 : Nat) (h : m2 < 256) : be16 255 m2 % 65536 = 65280 + m2 := by
  unfold be16; omega

theorem be16_small (a b : Nat) (ha : a < 256) (hb : b < 256) :
    be16 a b % 65536 = be16 a b := by
  unfold be16; omega

theorem putU16be_marker (m2 : Nat) (h : m2 < 256) :
    putU16be (65280 + m2) = [255, m2] := by
  unfold putU16be
  simp only [List.cons.injEq, and_true]
  constructor <;> omega

theorem putU16be_be16 (a b : Nat) (ha : a < 256) (hb : b < 256) :
    putU16be (be16 a b) = [a, b] := by
  unfold putU16be be16
  simp only [List.cons.injEq, and_true]
  constructor <;> omega


theorem scanLoop_nil : scanLoop [] = .ok ⟨[], false, 0⟩ := rfl

theorem scanLoop_one (b : Nat) :
    scanLoop [b] = .error (.generic "failed to read marker: unexpected EOF") := rfl

theorem scanLoop_sos (rest : List Nat) :
    scanLoop (255 :: 218 :: rest) = .ok ⟨255 :: 218 :: rest, false, 0⟩ := rfl

theorem scanLoop_seg_plain (m2 l1 l2 : Nat) (payload rest : List Nat)
    (hm2 : m2 < 256) (hsos : m2 ≠ 218) (hl1 : l1 < 256) (hl2 : l2 < 256)
    (hlen : payload.length = (be16 l1 l2 + 65534) % 65536)
    (hnr : ¬(65280 + m2 = 0xFFE1 ∧ payload.length > 6 ∧ payload.take 6 = exifSig)) :
    scanLoop (255 :: m2 :: l1 :: l2 :: (payload ++ rest)) =
      match scanLoop rest with
      | .error e => .error e
      | .ok o => .ok ⟨255 :: m2 :: l1 :: l2 :: (payload ++ o.out), o.found, o.tsize⟩ := by
  rw [scanLoop_eq_F (4 + payload.length + rest.length + 1) _ (by simp; omega)]
  have h4 : 4 + payload.length + rest.length + 1 = (3 + payload.length + rest.length) + 1 + 1 := by omega
  rw [h4, scanLoopF_cons]
  dsimp only
  rw [be16_marker m2 hm2]
  rw [if_neg (by intro hne; exact hne (band_ff00 m2 hm2))]
  rw [if_neg (by omega)]
  rw [be16_small l1 l2 hl1 hl2]
  rw [if_neg (by rw [List.length_append]; omega)]
  rw [List.take_left' hlen, List.drop_left' hlen]
  rw [if_neg hnr]
  rw [show scanLoopF ((3 + payload.length + rest.length) + 1) rest = scanLoop rest from
    scanLoopF_fuel_irrel _ _ _ (by omega) (Nat.lt_succ_self _)]
  cases hsr : scanLoop rest with
  | error e => rfl
  | ok o =>
    dsimp only
    rw [putU16be_marker m2 hm2, putU16be_be16 l1 l2 hl1 hl2]
    simp


/-- One scanner iteration over a complete EXIF-routed segment: the
payload goes through `removeThumbnailFromExif` and is re-emitted with a
recomputed length field. -/
theorem scanLoop_seg_exif (l1 l2 : Nat) (payload rest : List Nat)
    (hl1 : l1 < 256) (hl2 : l2 < 256)
    (hlen : payload.length = (be16 l1 l2 + 65534) % 65536)
    (h6 : payload.length > 6) (hsig : payload.take 6 = exifSig) :
    scanLoop (255 :: 225 :: l1 :: l2 :: (payload ++ rest)) =
      match removeThumbnailFromExif payload with
      | .error e => .error (.format ("failed to remove EXIF thumbnail: " ++ e))
      | .ok s =>
        match scanLoop rest with
        | .error e => .error e
        | .ok o =>
          .ok ⟨255 :: 225 :: (putU16be ((s.payload.length + 2) % 65536) ++
                 (s.payload ++ o.out)),
               s.hadThumb || o.found,
               if o.found then o.tsize else if s.hadThumb then s.thumbSize else 0⟩ := by
  rw [scanLoop_eq_F (4 + payload.length + rest.length + 1) _ (by simp; omega)]
  have h4 : 4 + payload.length + rest.length + 1 = (3 + payload.length + rest.length) + 1 + 1 := by omega
  rw [h4, scanLoopF_cons]
  dsimp only
  rw [be16_marker 225 (by omega)]
  rw [if_neg (by intro hne; exact hne (band_ff00 225 (by omega)))]
  rw [if_neg (by omega)]
  rw [be16_small l1 l2 hl1 hl2]
  rw [if_neg (by rw [List.length_append]; omega)]
  rw [List.take_left' hlen, List.drop_left' hlen]
  rw [if_pos ⟨by omega, h6, hsig⟩]
  rw [show scanLoopF ((3 + payload.length + rest.length) + 1) rest = scanLoop rest from
    scanLoopF_fuel_irrel _ _ _ (by omega) (Nat.lt_succ_self _)]
  cases hst : removeThumbnailFromExif payload with
  | error e => rfl
  | ok s =>
    dsimp only
    cases hsr : scanLoop rest with
    | error e => rfl
    | ok o =>
      dsimp only
      rw [show putU16be (65280 + 225) = [255, 225] from putU16be_marker 225 (by omega)]
      simp

/-- One scanner iteration over a truncated segment: fewer payload bytes
remain than the length field announces, yielding a generic read error. -/
theorem scanLoop_seg_trunc (m2 l1 l2 : Nat) (rest2 : List Nat)
    (hm2 : m2 < 256) (hsos : m2 ≠ 218)
    (hshort : rest2.length < (be16 l1 l2 % 65536 + 65534) % 65536) :
    scanLoop (255 :: m2 :: l1 :: l2 :: rest2) =
      .error (.generic (if rest2.isEmpty then "failed to read segment data: EOF"
                        else "failed to read segment data: unexpected EOF")) := by
  rw [show scanLoop (255 :: m2 :: l1 :: l2 :: rest2) =
      scanLoopF ((3 + rest2.length) + 1 + 1) (255 :: m2 :: l1 :: l2 :: rest2) from
    scanLoop_eq_F _ _ (by simp; omega)]
  rw [scanLoopF_cons]
  dsimp only
  rw [be16_marker m2 hm2]
  rw [if_neg (by intro hne; exact hne (band_ff00 m2 hm2))]
  rw [if_neg (by omega)]
  rw [if_pos hshort]

/-! Specification lemmas for the EXIF thumbnail stripper -/

theorem putU32_length (b : Bool) (v : Nat) : (putU32 b v).length = 4 := by
  unfold putU32; cases b <;> rfl

theorem writeBytesAt_length (data ws : List Nat) (i : Nat)
    (h : i + ws.length ≤ data.length) :
    (writeBytesAt data i ws).length = data.length := by
  unfold writeBytesAt
  simp only [List.length_append, List.length_take, List.length_drop]
  omega

/-- On any success of `removeThumbnailFromExif`, every position the
stripper dereferences is inside the payload (these are exactly the
checks the source performs before reading). -/
theorem strip_ok_bounds (d : List Nat) (s : StripOut)
    (h : removeThumbnailFromExif d = .ok s) :
    6 ≤ d.length ∧ d.take 6 = exifSig ∧ 14 ≤ d.length ∧
    ifd0PosOf d + 2 ≤ d.length ∧ ifd1OffsetPosOf d + 4 ≤ d.length := by
  unfold removeThumbnailFromExif at h
  split at h
  · simp at h
  · next hc1 =>
    split at h
    · simp at h
    · next hc2 =>
      dsimp only at h
      split at h
      · simp at h
      · next hc3 =>
        split at h
        · simp at h
        · next hc4 =>
          push_neg at hc1
          refine ⟨by omega, hc1.2, by omega, by omega, by omega⟩

/-- A success of `removeThumbnailFromExif` with `hadThumb = false`
returns the original payload and size 0 (the IFD1 pointer was 0). -/
theorem strip_ok_false (d : List Nat) (s : StripOut)
    (h : removeThumbnailFromExif d = .ok s) (hf : s.hadThumb = false) :
    s = ⟨d, false, 0⟩ ∧ ifd1OffsetOf d = 0 := by
  unfold removeThumbnailFromExif at h
  split at h
  · simp at h
  · split at h
    · simp at h
    · dsimp only at h
      split at h
      · simp at h
      · split at h
        · simp at h
        · split at h
          · next hz =>
            rw [Except.ok.injEq] at h
            exact ⟨h.symm, hz⟩
          · rw [Except.ok.injEq] at h
            rw [← h] at hf
            simp at hf

/-- A success of `removeThumbnailFromExif` with `hadThumb = true`:
the IFD1 pointer was nonzero, the new payload is the original with the
pointer field zeroed and truncated at `6 + ifd1Offset`, and the size is
`length - (6 + ifd1Offset)` (possibly nonpositive, no bound is
checked on the IFD1 offset itself). -/
theorem strip_ok_true (d : List Nat) (s : StripOut)
    (h : removeThumbnailFromExif d = .ok s) (ht : s.hadThumb = true) :
    ifd1OffsetOf d ≠ 0 ∧
    s.payload = (writeBytesAt d (ifd1OffsetPosOf d)
      (putU32 (tiffLittle d) 0)).take (6 + ifd1OffsetOf d) ∧
    s.payload.length = min (6 + ifd1OffsetOf d) d.length ∧
    s.thumbSize = (d.length : Int) - ((6 + ifd1OffsetOf d : Nat) : Int) := by
  have hb := strip_ok_bounds d s h
  unfold removeThumbnailFromExif at h
  split at h
  · simp at h
  · split at h
    · simp at h
    · dsimp only at h
      split at h
      · simp at h
      · split at h
        · simp at h
        · split at h
          · next hz =>
            rw [Except.ok.injEq] at h
            rw [← h] at ht
            simp at ht
          · next hz =>
            rw [Except.ok.injEq] at h
            have hwl : (writeBytesAt d (ifd1OffsetPosOf d)
                (putU32 (tiffLittle d) 0)).length = d.length := by
              refine writeBytesAt_length _ _ _ ?_
              rw [putU32_length]
              omega
            refine ⟨hz, ?_, ?_, ?_⟩
            · rw [← h]
              dsimp only
              split
              · rfl
              · next hge =>
                rw [hwl] at hge
                rw [List.take_of_length_le (by omega)]
            · rw [← h]
              dsimp only
              split
              · next hlt =>
                rw [hwl] at hlt
                simp only [List.length_take, hwl]
              · next hge =>
                rw [hwl] at hge
                rw [hwl]
                omega
            · rw [← h]

/-! Scanner invariants -/

theorem bytesOk_cons (b : Nat) (l : List Nat) :
    bytesOk (b :: l) = true ↔ b < 256 ∧ bytesOk l = true := by
  simp [bytesOk]

theorem bytesOk_append (l1 l2 : List Nat) :
    bytesOk (l1 ++ l2) = true ↔ bytesOk l1 = true ∧ bytesOk l2 = true := by
  simp [bytesOk]

theorem bytesOk_take (l : List Nat) (n : Nat) (h : bytesOk l = true) :
    bytesOk (l.take n) = true := by
  simp only [bytesOk, List.all_eq_true, decide_eq_true_eq] at h ⊢
  exact fun b hb => h b (List.mem_of_mem_take hb)

theorem bytesOk_drop (l : List Nat) (n : Nat) (h : bytesOk l = true) :
    bytesOk (l.drop n) = true := by
  simp only [bytesOk, List.all_eq_true, decide_eq_true_eq] at h ⊢
  exact fun b hb => h b (List.mem_of_mem_drop hb)

/-- If the loop never saw a thumbnail, the reported thumbnail size is
still its initial value 0. -/
theorem scanF_tsize_inv : ∀ f l o, scanLoopF f l = .ok o → o.found = false →
    o.tsize = 0 := by
  intro f
  induction f with
  | zero => intro l o h hf; simp [scanLoopF_zero] at h
  | succ f ih =>
    intro l o h hf
    match l with
    | [] =>
      rw [scanLoopF_nil, Except.ok.injEq] at h
      rw [← h]
    | [b] => simp [scanLoopF_one] at h
    | m1 :: m2 :: rest =>
      rw [scanLoopF_cons] at h
      dsimp only at h
      split at h
      · simp at h
      · split at h
        · rw [Except.ok.injEq] at h
          rw [← h]
        · rcases rest with _ | ⟨l1, _ | ⟨l2, rest2⟩⟩
          · simp at h
          · simp at h
          · dsimp only at h
            split at h
            · simp at h
            · split at h
              · cases hst : removeThumbnailFromExif
                    (rest2.take ((be16 l1 l2 % 65536 + 65534) % 65536)) with
                | error e => rw [hst] at h; simp at h
                | ok s =>
                  rw [hst] at h
                  dsimp only at h
                  cases hrec : scanLoopF f
                      (rest2.drop ((be16 l1 l2 % 65536 + 65534) % 65536)) with
                  | error e => rw [hrec] at h; simp at h
                  | ok o2 =>
                    rw [hrec] at h
                    dsimp only at h
                    rw [Except.ok.injEq] at h
                    rw [← h] at hf ⊢
                    dsimp only at hf ⊢
                    rcases Bool.or_eq_false_iff.mp hf with ⟨hs, ho⟩
                    rw [ho, hs]
                    simp
              · cases hrec : scanLoopF f
                    (rest2.drop ((be16 l1 l2 % 65536 + 65534) % 65536)) with
                | error e => rw [hrec] at h; simp at h
                | ok o2 =>
                  rw [hrec] at h
                  dsimp only at h
                  rw [Except.ok.injEq] at h
                  rw [← h] at hf ⊢
                  dsimp only at hf ⊢
                  exact ih _ o2 hrec hf

/-- If the whole scan succeeds without finding a thumbnail, every
EXIF-routed payload came back unchanged, so the loop emitted its entire
input verbatim. -/
theorem scanF_false_id : ∀ f l o, bytesOk l = true → scanLoopF f l = .ok o →
    o.found = false → o = ⟨l, false, 0⟩ := by
  intro f
  induction f with
  | zero => intro l o hb h hf; simp [scanLoopF_zero] at h
  | succ f ih =>
    intro l o hb h hf
    match l with
    | [] =>
      rw [scanLoopF_nil, Except.ok.injEq] at h
      rw [← h]
    | [b] => simp [scanLoopF_one] at h
    | m1 :: m2 :: rest =>
      have hm1 : m1 < 256 := ((bytesOk_cons _ _).mp hb).1
      have hbr : bytesOk (m2 :: rest) = true := ((bytesOk_cons _ _).mp hb).2
      have hm2 : m2 < 256 := ((bytesOk_cons _ _).mp hbr).1
      have hbrest : bytesOk rest = true := ((bytesOk_cons _ _).mp hbr).2
      rw [scanLoopF_cons] at h
      dsimp only at h
      split at h
      · simp at h
      · split at h
        · next hsos =>
          rw [Except.ok.injEq] at h
          rw [← h]
          rw [be16_small m1 m2 hm1 hm2] at hsos
          have hm : m1 = 255 ∧ m2 = 218 := by unfold be16 at hsos; omega
          rw [be16_small m1 m2 hm1 hm2, putU16be_be16 m1 m2 hm1 hm2]
          simp
        · rcases rest with _ | ⟨l1, _ | ⟨l2, rest2⟩⟩
          · simp at h
          · simp at h
          · have hl1 : l1 < 256 := ((bytesOk_cons _ _).mp hbrest).1
            have hbr2 : bytesOk (l2 :: rest2) = true := ((bytesOk_cons _ _).mp hbrest).2
            have hl2 : l2 < 256 := ((bytesOk_cons _ _).mp hbr2).1
            have hbrest2 : bytesOk rest2 = true := ((bytesOk_cons _ _).mp hbr2).2
            dsimp only at h
            split at h
            · simp at h
            · next hfit =>
              push_neg at hfit
              have hsegl : (rest2.take ((be16 l1 l2 % 65536 + 65534) % 65536)).length
                  = (be16 l1 l2 % 65536 + 65534) % 65536 := by
                rw [List.length_take]
                omega
              have hrecomp : ((be16 l1 l2 % 65536 + 65534) % 65536 + 2) % 65536
                  = be16 l1 l2 := by
                have : be16 l1 l2 < 65536 := by unfold be16; omega
                omega
              split at h
              · cases hst : removeThumbnailFromExif
                    (rest2.take ((be16 l1 l2 % 65536 + 65534) % 65536)) with
                | error e => rw [hst] at h; simp at h
                | ok s =>
                  rw [hst] at h
                  dsimp only at h
                  cases hrec : scanLoopF f
                      (rest2.drop ((be16 l1 l2 % 65536 + 65534) % 65536)) with
                  | error e => rw [hrec] at h; simp at h
                  | ok o2 =>
                    rw [hrec] at h
                    dsimp only at h
                    rw [Except.ok.injEq] at h
                    rw [← h] at hf ⊢
                    dsimp only at hf ⊢
                    rcases Bool.or_eq_false_iff.mp hf with ⟨hs, ho⟩
                    have hsval := (strip_ok_false _ _ hst hs).1
                    have ho2 : o2 = ⟨rest2.drop ((be16 l1 l2 % 65536 + 65534) % 65536),
                        false, 0⟩ :=
                      ih _ o2 (bytesOk_drop _ _ hbrest2) hrec ho
                    rw [hsval, ho2]
                    dsimp only
                    rw [hsegl, hrecomp]
                    rw [be16_small m1 m2 hm1 hm2, putU16be_be16 m1 m2 hm1 hm2,
                        putU16be_be16 l1 l2 hl1 hl2]
                    simp [List.take_append_drop]
              · cases hrec : scanLoopF f
                    (rest2.drop ((be16 l1 l2 % 65536 + 65534) % 65536)) with
                | error e => rw [hrec] at h; simp at h
                | ok o2 =>
                  rw [hrec] at h
                  dsimp only at h
                  rw [Except.ok.injEq] at h
                  rw [← h] at hf ⊢
                  dsimp only at hf ⊢
                  have ho2 : o2 = ⟨rest2.drop ((be16 l1 l2 % 65536 + 65534) % 65536),
                      false, 0⟩ :=
                    ih _ o2 (bytesOk_drop _ _ hbrest2) hrec hf
                  rw [ho2]
                  dsimp only
                  rw [be16_small m1 m2 hm1 hm2, putU16be_be16 m1 m2 hm1 hm2,
                      be16_small l1 l2 hl1 hl2, putU16be_be16 l1 l2 hl1 hl2]
                  simp [List.take_append_drop]

theorem scanLoop_tail (t : List Nat) (h : ScanTail t) :
    scanLoop t = .ok ⟨t, false, 0⟩ := by
  cases h with
  | eof => exact scanLoop_nil
  | sos rest => exact scanLoop_sos rest

/-- Scanning a thumbnail-free run followed by anything emits the run
verbatim and continues with the remainder. -/
theorem scanLoop_append_nts (pre : List Nat) (hp : NoThumbSegs pre) :
    ∀ x, scanLoop (pre ++ x) =
      match scanLoop x with
      | .error e => .error e
      | .ok o => .ok ⟨pre ++ o.out, o.found, o.tsize⟩ := by
  induction hp with
  | nil =>
    intro x
    simp only [List.nil_append]
    cases hx : scanLoop x with
    | error e => rfl
    | ok o => rfl
  | plain m2 l1 l2 payload rest hm2 hsos hl1 hl2 hlen hnr _ ih =>
    intro x
    rw [List.cons_append, List.cons_append, List.cons_append, List.cons_append,
        List.append_assoc]
    rw [scanLoop_seg_plain m2 l1 l2 payload (rest ++ x) hm2 hsos hl1 hl2 hlen hnr]
    rw [ih x]
    cases hx : scanLoop x with
    | error e => rfl
    | ok o =>
      dsimp only
      simp [List.append_assoc]
  | exif l1 l2 payload rest hl1 hl2 hlen h6 hsig hstrip _ ih =>
    intro x
    rw [List.cons_append, List.cons_append, List.cons_append, List.cons_append,
        List.append_assoc]
    rw [scanLoop_seg_exif l1 l2 payload (rest ++ x) hl1 hl2 hlen h6 hsig]
    rw [hstrip]
    rw [ih x]
    cases hx : scanLoop x with
    | error e => rfl
    | ok o =>
      dsimp only
      have ht : (if o.found = true then o.tsize
          else if (false : Bool) = true then (0 : Int) else 0) = o.tsize := by
        cases hof : o.found with
        | true => simp
        | false =>
          have h0 : o.tsize = 0 := scanF_tsize_inv _ _ _ hx hof
          simp [h0]
      have hrec2 : ((be16 l1 l2 + 65534) % 65536 + 2) % 65536 = be16 l1 l2 := by
        have hlt : be16 l1 l2 < 65536 := by unfold be16; omega
        omega
      rw [hlen, hrec2, putU16be_be16 l1 l2 hl1 hl2]
      simp only [List.append_assoc, Bool.false_or, ht]
      simp

/-! Claim C1 -/

/-- Unfolding of the top of `ExifRemoveThumbnailBytes` once the SOI
check passes. -/
theorem ERTB_step (l : List Nat) (h2 : 2 ≤ l.length)
    (hsoi : be16 (l.getD 0 0) (l.getD 1 0) = 0xFFD8) :
    ExifRemoveThumbnailBytes l =
      match scanLoop (l.drop 2) with
      | .error e => .error e
      | .ok o => .ok (l.take 2 ++ o.out,
          ⟨o.found, (l.length : Int), ((l.take 2 ++ o.out).length : Int), o.tsize⟩) := by
  unfold ExifRemoveThumbnailBytes
  rw [if_neg (by push_neg; exact ⟨by omega, hsoi⟩)]

/-- C1: for every well-formed JPEG (SOI, a run of complete segments
whose EXIF segments, if any, have IFD0 next-IFD pointer 0, ended by
end-of-input or a start-of-scan tail), `ExifRemoveThumbnailBytes`
succeeds with `hadThumbnail = false`, `thumbnailSize = 0`, and output
bytes equal to the input bytes, so `afterSize = beforeSize`. -/
theorem claim1_no_thumbnail_identity (segs tail : List Nat)
    (hs : NoThumbSegs segs) (ht : ScanTail tail) :
    ExifRemoveThumbnailBytes (255 :: 216 :: (segs ++ tail)) =
      .ok (255 :: 216 :: (segs ++ tail),
           ⟨false, ((255 :: 216 :: (segs ++ tail)).length : Int),
            ((255 :: 216 :: (segs ++ tail)).length : Int), 0⟩) := by
  have hsoi : be16 ((255 :: 216 :: (segs ++ tail)).getD 0 0)
      ((255 :: 216 :: (segs ++ tail)).getD 1 0) = 0xFFD8 := by
    simp only [List.getD_cons_zero, List.getD_cons_succ]
    unfold be16
    omega
  have h2 : 2 ≤ (255 :: 216 :: (segs ++ tail)).length := by
    simp only [List.length_cons]
    omega
  rw [ERTB_step (255 :: 216 :: (segs ++ tail)) h2 hsoi]
  have hdrop : (255 :: 216 :: (segs ++ tail)).drop 2 = segs ++ tail := rfl
  rw [hdrop]
  rw [scanLoop_append_nts segs hs tail, scanLoop_tail tail ht]
  dsimp only
  rfl

/-- Witness for C1 at a concrete JPEG: one EXIF segment with a zero
IFD1 pointer, followed by a start-of-scan tail. -/
theorem claim1_witness :
    ExifRemoveThumbnailBytes
      (255 :: 216 :: (([255, 225, 0, 22] ++
        ([69, 120, 105, 102, 0, 0, 77, 77, 0, 42, 0, 0, 0, 8, 0, 0, 0, 0, 0, 0] ++ [])) ++
        (255 :: 218 :: [1, 2, 3]))) =
      .ok (255 :: 216 :: (([255, 225, 0, 22] ++
        ([69, 120, 105, 102, 0, 0, 77, 77, 0, 42, 0, 0, 0, 8, 0, 0, 0, 0, 0, 0] ++ [])) ++
        (255 :: 218 :: [1, 2, 3])),
        ⟨false, 31, 31, 0⟩) := by
  have h := claim1_no_thumbnail_identity
    (255 :: 225 :: 0 :: 22 ::
      ([69, 120, 105, 102, 0, 0, 77, 77, 0, 42, 0, 0, 0, 8, 0, 0, 0, 0, 0, 0] ++ []))
    (255 :: 218 :: [1, 2, 3])
    (NoThumbSegs.exif 0 22
      [69, 120, 105, 102, 0, 0, 77, 77, 0, 42, 0, 0, 0, 8, 0, 0, 0, 0, 0, 0] []
      (by decide) (by decide) (by decide) (by decide) (by decide) (by rfl)
      NoThumbSegs.nil)
    (ScanTail.sos [1, 2, 3])
  exact h

/-! Claim C3 -/

/-- C3 counterexample: an EXIF payload whose nonzero IFD1 offset points
beyond the payload end (offset 15, start 21 > length 20) is NOT
rejected: the stripper succeeds with a negative reported size -1. -/
theorem claim3_counterexample :
    removeThumbnailFromExif
      [69, 120, 105, 102, 0, 0, 77, 77, 0, 42, 0, 0, 0, 8, 0, 0, 0, 0, 0, 15] =
      .ok ⟨[69, 120, 105, 102, 0, 0, 77, 77, 0, 42, 0, 0, 0, 8, 0, 0, 0, 0, 0, 0],
           true, -1⟩ := by rfl

/-- C3 amended: the IFD0 position and the next-IFD pointer position are
bounds-checked (on success they lie within the payload), but a nonzero
IFD1 offset is not validated: on success with a thumbnail the reported
size is `length - (6 + ifd1Offset)`, which can be zero or negative. -/
theorem claim3_checked_offsets (d : List Nat) (s : StripOut)
    (h : removeThumbnailFromExif d = .ok s) :
    (ifd0PosOf d + 2 ≤ d.length ∧ ifd1OffsetPosOf d + 4 ≤ d.length) ∧
    (s.hadThumb = true →
      s.thumbSize = (d.length : Int) - ((6 + ifd1OffsetOf d : Nat) : Int)) := by
  have hb := strip_ok_bounds d s h
  refine ⟨⟨hb.2.2.2.1, hb.2.2.2.2⟩, ?_⟩
  intro ht
  exact (strip_ok_true d s h ht).2.2.2

/-- Witness for `claim3_checked_offsets` at a concrete payload. -/
theorem claim3_witness :
    (ifd0PosOf [69, 120, 105, 102, 0, 0, 77, 77, 0, 42, 0, 0, 0, 8, 0, 0, 0, 0, 0, 15] + 2 ≤ 20 ∧
     ifd1OffsetPosOf [69, 120, 105, 102, 0, 0, 77, 77, 0, 42, 0, 0, 0, 8, 0, 0, 0, 0, 0, 15] + 4 ≤ 20) ∧
    ((true : Bool) = true →
      (-1 : Int) = (20 : Int) -
        ((6 + ifd1OffsetOf [69, 120, 105, 102, 0, 0, 77, 77, 0, 42, 0, 0, 0, 8, 0, 0, 0, 0, 0, 15] : Nat) : Int)) :=
  claim3_checked_offsets
    [69, 120, 105, 102, 0, 0, 77, 77, 0, 42, 0, 0, 0, 8, 0, 0, 0, 0, 0, 15]
    ⟨[69, 120, 105, 102, 0, 0, 77, 77, 0, 42, 0, 0, 0, 8, 0, 0, 0, 0, 0, 0], true, -1⟩
    (by rfl)

/-! Claim C4 -/

/-- C4: on every stripper success with `hadThumb = true`, the new
payload is the original payload with the 4-byte next-IFD pointer field
overwritten with 0 (written in the payload's declared byte order) and
truncated at the computed thumbnail start `6 + ifd1Offset`. -/
theorem claim4_zero_pointer_truncate (d : List Nat) (s : StripOut)
    (h : removeThumbnailFromExif d = .ok s) (ht : s.hadThumb = true) :
    s.payload = (writeBytesAt d (ifd1OffsetPosOf d)
      (putU32 (tiffLittle d) 0)).take (6 + ifd1OffsetOf d) :=
  (strip_ok_true d s h ht).2.1

/-- Witness for `claim4_zero_pointer_truncate` at a concrete payload
(offset 15, payload length 22: pointer zeroed, truncated at 21). -/
theorem claim4_witness :
    ([69, 120, 105, 102, 0, 0, 77, 77, 0, 42, 0, 0, 0, 8, 0, 0, 0, 0, 0, 0, 7] : List Nat) =
      (writeBytesAt [69, 120, 105, 102, 0, 0, 77, 77, 0, 42, 0, 0, 0, 8, 0, 0, 0, 0, 0, 15, 7, 9]
        (ifd1OffsetPosOf [69, 120, 105, 102, 0, 0, 77, 77, 0, 42, 0, 0, 0, 8, 0, 0, 0, 0, 0, 15, 7, 9])
        (putU32 (tiffLittle [69, 120, 105, 102, 0, 0, 77, 77, 0, 42, 0, 0, 0, 8, 0, 0, 0, 0, 0, 15, 7, 9]) 0)).take
        (6 + ifd1OffsetOf [69, 120, 105, 102, 0, 0, 77, 77, 0, 42, 0, 0, 0, 8, 0, 0, 0, 0, 0, 15, 7, 9]) :=
  claim4_zero_pointer_truncate
    [69, 120, 105, 102, 0, 0, 77, 77, 0, 42, 0, 0, 0, 8, 0, 0, 0, 0, 0, 15, 7, 9]
    ⟨[69, 120, 105, 102, 0, 0, 77, 77, 0, 42, 0, 0, 0, 8, 0, 0, 0, 0, 0, 0, 7], true, 1⟩
    (by rfl) (by rfl)

/-- Behaviour of `ExifRemoveThumbnailBytes` on a stream starting with SOI: the SOI
bytes are copied and the loop output is appended. -/
theorem ERTB_soi (t : List Nat) :
    ExifRemoveThumbnailBytes (255 :: 216 :: t) =
      match scanLoop t with
      | .error e => .error e
      | .ok o => .ok (255 :: 216 :: o.out,
          ⟨o.found, ((255 :: 216 :: t).length : Int),
           ((255 :: 216 :: o.out).length : Int), o.tsize⟩) := by
  have hsoi : be16 ((255 :: 216 :: t).getD 0 0) ((255 :: 216 :: t).getD 1 0) = 0xFFD8 := by
    simp only [List.getD_cons_zero, List.getD_cons_succ]
    unfold be16
    omega
  have h2 : 2 ≤ (255 :: 216 :: t).length := by
    simp only [List.length_cons]
    omega
  rw [ERTB_step (255 :: 216 :: t) h2 hsoi]
  have hdrop : (255 :: 216 :: t).drop 2 = t := rfl
  rw [hdrop]
  cases hs : scanLoop t with
  | error e => rfl
  | ok o => rfl

/-! Claim C5 -/

/-- C5 counterexample: a segment announcing 14 payload bytes with only
3 remaining makes `ExifRemoveThumbnailBytes` fail with a GENERIC
wrapped read error, not a `FormatError`. -/
theorem claim5_counterexample :
    ExifRemoveThumbnailBytes [255, 216, 255, 224, 0, 16, 1, 2, 3] =
      .error (.generic "failed to read segment data: unexpected EOF") := by rfl

/-- C5 amended: whenever a non-start-of-scan segment declares a length
`L` but fewer than `(L - 2) mod 2^16` payload bytes remain, the call
fails (with no partial output) — but with the generic wrapped error of
the payload read, not with a `FormatError`. -/
theorem claim5_truncated_segment (pre : List Nat) (hp : NoThumbSegs pre)
    (m2 l1 l2 : Nat) (rest2 : List Nat)
    (hm2 : m2 < 256) (hsos : m2 ≠ 218)
    (hshort : rest2.length < (be16 l1 l2 % 65536 + 65534) % 65536) :
    ExifRemoveThumbnailBytes (255 :: 216 :: (pre ++ (255 :: m2 :: l1 :: l2 :: rest2))) =
      .error (.generic (if rest2.isEmpty then "failed to read segment data: EOF"
                        else "failed to read segment data: unexpected EOF")) := by
  rw [ERTB_soi]
  rw [scanLoop_append_nts pre hp]
  rw [scanLoop_seg_trunc m2 l1 l2 rest2 hm2 hsos hshort]

/-- Witness for `claim5_truncated_segment`. -/
theorem claim5_witness :
    ExifRemoveThumbnailBytes (255 :: 216 :: ([] ++ (255 :: 224 :: 0 :: 16 :: [1, 2, 3]))) =
      .error (.generic "failed to read segment data: unexpected EOF") :=
  claim5_truncated_segment [] NoThumbSegs.nil 224 0 16 [1, 2, 3]
    (by decide) (by decide) (by decide)

/-! Claim C9 -/

/-- C9 counterexample: with exactly one byte remaining at a marker
position, the call FAILS with a generic read error instead of
succeeding as the claim states. -/
theorem claim9_counterexample :
    ExifRemoveThumbnailBytes [255, 216, 0] =
      .error (.generic "failed to read marker: unexpected EOF") := by rfl

/-- C9 amended: end-of-input with zero bytes at a marker position is
normal termination (success, output so far); exactly one remaining byte
makes the 2-byte marker read fail with a generic error. -/
theorem claim9_eof_at_marker (pre : List Nat) (hp : NoThumbSegs pre) (b : Nat) :
    ExifRemoveThumbnailBytes (255 :: 216 :: pre) =
      .ok (255 :: 216 :: pre,
        ⟨false, ((255 :: 216 :: pre).length : Int),
         ((255 :: 216 :: pre).length : Int), 0⟩) ∧
    ExifRemoveThumbnailBytes (255 :: 216 :: (pre ++ [b])) =
      .error (.generic "failed to read marker: unexpected EOF") := by
  constructor
  · rw [ERTB_soi]
    have hp1 := scanLoop_append_nts pre hp []
    rw [List.append_nil] at hp1
    rw [hp1, scanLoop_nil]
    dsimp only
    rw [List.append_nil]
  · rw [ERTB_soi]
    rw [scanLoop_append_nts pre hp [b], scanLoop_one b]

/-- Witness for `claim9_eof_at_marker`. -/
theorem claim9_witness :
    ExifRemoveThumbnailBytes (255 :: 216 :: ([] : List Nat)) =
      .ok (255 :: 216 :: ([] : List Nat), ⟨false, 2, 2, 0⟩) ∧
    ExifRemoveThumbnailBytes (255 :: 216 :: (([] : List Nat) ++ [7])) =
      .error (.generic "failed to read marker: unexpected EOF") :=
  claim9_eof_at_marker [] NoThumbSegs.nil 7

theorem putU16be_length (v : Nat) : (putU16be v).length = 2 := rfl

/-- Full-function behaviour on a JPEG whose EXIF segment (after a
thumbnail-free prefix) is successfully stripped: the segment is
re-emitted with marker, recomputed length `(stripped length + 2)`, and
the stripped payload. -/
theorem ERTB_exif_run (pre : List Nat) (hp : NoThumbSegs pre)
    (l1 l2 : Nat) (payload rest : List Nat)
    (hl1 : l1 < 256) (hl2 : l2 < 256)
    (hlen : payload.length = (be16 l1 l2 + 65534) % 65536)
    (h6 : payload.length > 6) (hsig : payload.take 6 = exifSig)
    (s : StripOut) (hst : removeThumbnailFromExif payload = .ok s)
    (o : ScanOut) (hrec : scanLoop rest = .ok o) :
    ExifRemoveThumbnailBytes
      (255 :: 216 :: (pre ++ (255 :: 225 :: l1 :: l2 :: (payload ++ rest)))) =
      .ok (255 :: 216 :: (pre ++ (255 :: 225 ::
             (putU16be ((s.payload.length + 2) % 65536) ++ (s.payload ++ o.out)))),
        ⟨s.hadThumb || o.found,
         ((255 :: 216 :: (pre ++ (255 :: 225 :: l1 :: l2 :: (payload ++ rest)))).length : Int),
         ((255 :: 216 :: (pre ++ (255 :: 225 ::
             (putU16be ((s.payload.length + 2) % 65536) ++ (s.payload ++ o.out))))).length : Int),
         if o.found then o.tsize else if s.hadThumb then s.thumbSize else 0⟩) := by
  rw [ERTB_soi]
  rw [scanLoop_append_nts pre hp]
  rw [scanLoop_seg_exif l1 l2 payload rest hl1 hl2 hlen h6 hsig]
  rw [hst, hrec]

/-! Claim C6 -/

/-- C6: whenever an EXIF segment's payload is successfully stripped,
the scanner emits for that segment the marker, then a recomputed
2-byte big-endian length equal to the stripped payload's length plus 2
(cast to uint16 as in the source), then the stripped payload — the
length field is recomputed, not copied from the input. -/
theorem claim6_recomputed_length (pre : List Nat) (hp : NoThumbSegs pre)
    (l1 l2 : Nat) (payload rest : List Nat)
    (hl1 : l1 < 256) (hl2 : l2 < 256)
    (hlen : payload.length = (be16 l1 l2 + 65534) % 65536)
    (h6 : payload.length > 6) (hsig : payload.take 6 = exifSig)
    (s : StripOut) (hst : removeThumbnailFromExif payload = .ok s)
    (o : ScanOut) (hrec : scanLoop rest = .ok o) :
    ExifRemoveThumbnailBytes
      (255 :: 216 :: (pre ++ (255 :: 225 :: l1 :: l2 :: (payload ++ rest)))) =
      .ok (255 :: 216 :: (pre ++ (255 :: 225 ::
             (putU16be ((s.payload.length + 2) % 65536) ++ (s.payload ++ o.out)))),
        ⟨s.hadThumb || o.found,
         ((255 :: 216 :: (pre ++ (255 :: 225 :: l1 :: l2 :: (payload ++ rest)))).length : Int),
         ((255 :: 216 :: (pre ++ (255 :: 225 ::
             (putU16be ((s.payload.length + 2) % 65536) ++ (s.payload ++ o.out))))).length : Int),
         if o.found then o.tsize else if s.hadThumb then s.thumbSize else 0⟩) :=
  ERTB_exif_run pre hp l1 l2 payload rest hl1 hl2 hlen h6 hsig s hst o hrec

/-- Witness for `claim6_recomputed_length`: a 22-byte EXIF payload is
stripped to 21 bytes and re-emitted with recomputed length 23, while
the original length field held 24. -/
theorem claim6_witness :
    ExifRemoveThumbnailBytes
      (255 :: 216 :: (([] : List Nat) ++ (255 :: 225 :: 0 :: 24 ::
        ([69, 120, 105, 102, 0, 0, 77, 77, 0, 42, 0, 0, 0, 8, 0, 0, 0, 0, 0, 15, 7, 9] ++ [])))) =
      .ok ([255, 216, 255, 225, 0, 23,
            69, 120, 105, 102, 0, 0, 77, 77, 0, 42, 0, 0, 0, 8, 0, 0, 0, 0, 0, 0, 7],
           ⟨true, 28, 27, 1⟩) := by
  have h := claim6_recomputed_length [] NoThumbSegs.nil 0 24
    [69, 120, 105, 102, 0, 0, 77, 77, 0, 42, 0, 0, 0, 8, 0, 0, 0, 0, 0, 15, 7, 9] []
    (by decide) (by decide) (by decide) (by decide) (by decide)
    ⟨[69, 120, 105, 102, 0, 0, 77, 77, 0, 42, 0, 0, 0, 8, 0, 0, 0, 0, 0, 0, 7], true, 1⟩
    (by rfl) ⟨[], false, 0⟩ (by rfl)
  exact h

/-! Claim C2 -/

/-- C2 counterexample: an EXIF whose nonzero IFD1 offset points exactly
at the payload end (start 20 = length 20) yields a successful call with
`hadThumbnail = true` but `thumbnailSize = 0` and
`afterSize = beforeSize = 26`, refuting both `thumbnailSize > 0` and
`afterSize < beforeSize`. -/
theorem claim2_counterexample :
    ExifRemoveThumbnailBytes
      [255, 216, 255, 225, 0, 22,
       69, 120, 105, 102, 0, 0, 77, 77, 0, 42, 0, 0, 0, 8, 0, 0, 0, 0, 0, 14] =
      .ok ([255, 216, 255, 225, 0, 22,
            69, 120, 105, 102, 0, 0, 77, 77, 0, 42, 0, 0, 0, 8, 0, 0, 0, 0, 0, 0],
           ⟨true, 26, 26, 0⟩) := by rfl

/-- C2 amended: when the single thumbnail-bearing EXIF segment's IFD1
offset points strictly inside its payload (and no other segment
reports a thumbnail), a success with `hadThumbnail = true` has
`thumbnailSize > 0`, `afterSize < beforeSize`, and
`afterSize = beforeSize - thumbnailSize` exactly. -/
theorem claim2_size_reduction (pre : List Nat) (hp : NoThumbSegs pre)
    (l1 l2 : Nat) (payload post : List Nat)
    (hl1 : l1 < 256) (hl2 : l2 < 256)
    (hlen : payload.length = (be16 l1 l2 + 65534) % 65536)
    (h6 : payload.length > 6) (hsig : payload.take 6 = exifSig)
    (s : StripOut) (hst : removeThumbnailFromExif payload = .ok s)
    (hth : s.hadThumb = true)
    (hin : 6 + ifd1OffsetOf payload < payload.length)
    (hpost : bytesOk post = true)
    (o : ScanOut) (hpo : scanLoop post = .ok o) (hof : o.found = false) :
    ExifRemoveThumbnailBytes
      (255 :: 216 :: (pre ++ (255 :: 225 :: l1 :: l2 :: (payload ++ post)))) =
      .ok (255 :: 216 :: (pre ++ (255 :: 225 ::
             (putU16be ((s.payload.length + 2) % 65536) ++ (s.payload ++ post)))),
        ⟨true,
         ((255 :: 216 :: (pre ++ (255 :: 225 :: l1 :: l2 :: (payload ++ post)))).length : Int),
         ((255 :: 216 :: (pre ++ (255 :: 225 ::
             (putU16be ((s.payload.length + 2) % 65536) ++ (s.payload ++ post))))).length : Int),
         s.thumbSize⟩) ∧
    0 < s.thumbSize ∧
    ((255 :: 216 :: (pre ++ (255 :: 225 ::
        (putU16be ((s.payload.length + 2) % 65536) ++ (s.payload ++ post))))).length : Int) <
      ((255 :: 216 :: (pre ++ (255 :: 225 :: l1 :: l2 :: (payload ++ post)))).length : Int) ∧
    ((255 :: 216 :: (pre ++ (255 :: 225 ::
        (putU16be ((s.payload.length + 2) % 65536) ++ (s.payload ++ post))))).length : Int) =
      ((255 :: 216 :: (pre ++ (255 :: 225 :: l1 :: l2 :: (payload ++ post)))).length : Int) -
        s.thumbSize := by
  have ho : o = ⟨post, false, 0⟩ := scanF_false_id (post.length + 1) post o hpost hpo hof
  rw [ho] at hpo
  have h := ERTB_exif_run pre hp l1 l2 payload post hl1 hl2 hlen h6 hsig s hst
    ⟨post, false, 0⟩ hpo
  dsimp only at h
  rw [hth] at h
  have hts := strip_ok_true payload s hst hth
  have hplen : s.payload.length = 6 + ifd1OffsetOf payload := by
    rw [hts.2.2.1]
    omega
  have hsize : s.thumbSize =
      (payload.length : Int) - ((6 + ifd1OffsetOf payload : Nat) : Int) := hts.2.2.2
  refine ⟨?_, ?_, ?_, ?_⟩
  · simpa using h
  · rw [hsize]
    push_cast
    omega
  · simp only [List.length_cons, List.length_append, putU16be_length, hplen]
    push_cast
    omega
  · rw [hsize]
    simp only [List.length_cons, List.length_append, putU16be_length, hplen]
    push_cast
    omega

/-- Witness for `claim2_size_reduction`: the 28-byte JPEG with a 1-byte
thumbnail region shrinks to 27 bytes with `thumbnailSize = 1`. -/
theorem claim2_witness :
    ExifRemoveThumbnailBytes
      (255 :: 216 :: (([] : List Nat) ++ (255 :: 225 :: 0 :: 24 ::
        ([69, 120, 105, 102, 0, 0, 77, 77, 0, 42, 0, 0, 0, 8, 0, 0, 0, 0, 0, 15, 7, 9] ++ [])))) =
      .ok ([255, 216, 255, 225, 0, 23,
            69, 120, 105, 102, 0, 0, 77, 77, 0, 42, 0, 0, 0, 8, 0, 0, 0, 0, 0, 0, 7],
           ⟨true, 28, 27, 1⟩) ∧
    (0 : Int) < 1 ∧ (27 : Int) < 28 ∧ (27 : Int) = 28 - 1 := by
  have h := claim2_size_reduction [] NoThumbSegs.nil 0 24
    [69, 120, 105, 102, 0, 0, 77, 77, 0, 42, 0, 0, 0, 8, 0, 0, 0, 0, 0, 15, 7, 9] []
    (by decide) (by decide) (by decide) (by decide) (by decide)
    ⟨[69, 120, 105, 102, 0, 0, 77, 77, 0, 42, 0, 0, 0, 8, 0, 0, 0, 0, 0, 0, 7], true, 1⟩
    (by rfl) (by rfl) (by decide) (by rfl)
    ⟨[], false, 0⟩ (by rfl) (by rfl)
  exact h

/-! Claim C7 -/

/-- C7 counterexample: a 0xFFE1 segment whose payload is exactly the
6-byte EXIF signature satisfies the claim's routing premise ("at least
6 bytes and begins with the signature") yet is NOT routed: the call
succeeds, copying it verbatim, whereas routing would have surfaced the
format error the stripper raises on this very payload. -/
theorem claim7_counterexample :
    ExifRemoveThumbnailBytes [255, 216, 255, 225, 0, 8, 69, 120, 105, 102, 0, 0] =
      .ok ([255, 216, 255, 225, 0, 8, 69, 120, 105, 102, 0, 0],
           ⟨false, 12, 12, 0⟩) ∧
    removeThumbnailFromExif [69, 120, 105, 102, 0, 0] =
      .error "invalid TIFF header" := ⟨by rfl, by rfl⟩

/-- C7 amended: a segment is routed to the stripper exactly when its
marker is 0xFFE1, its payload is strictly longer than 6 bytes, and the
payload begins with the EXIF signature; every other complete segment
(including a 0xFFE1 segment with a 6-byte payload) is copied to the
output unmodified. -/
theorem claim7_routing (m2 l1 l2 : Nat) (payload rest : List Nat)
    (hm2 : m2 < 256) (hsos : m2 ≠ 218) (hl1 : l1 < 256) (hl2 : l2 < 256)
    (hlen : payload.length = (be16 l1 l2 + 65534) % 65536) :
    ((65280 + m2 = 0xFFE1 ∧ payload.length > 6 ∧ payload.take 6 = exifSig) →
      scanLoop (255 :: m2 :: l1 :: l2 :: (payload ++ rest)) =
        match removeThumbnailFromExif payload with
        | .error e => .error (.format ("failed to remove EXIF thumbnail: " ++ e))
        | .ok s =>
          match scanLoop rest with
          | .error e => .error e
          | .ok o =>
            .ok ⟨255 :: 225 :: (putU16be ((s.payload.length + 2) % 65536) ++
                   (s.payload ++ o.out)),
                 s.hadThumb || o.found,
                 if o.found then o.tsize else if s.hadThumb then s.thumbSize else 0⟩) ∧
    (¬(65280 + m2 = 0xFFE1 ∧ payload.length > 6 ∧ payload.take 6 = exifSig) →
      scanLoop (255 :: m2 :: l1 :: l2 :: (payload ++ rest)) =
        match scanLoop rest with
        | .error e => .error e
        | .ok o => .ok ⟨255 :: m2 :: l1 :: l2 :: (payload ++ o.out), o.found, o.tsize⟩) := by
  constructor
  · intro hc
    have hm : m2 = 225 := by omega
    subst hm
    exact scanLoop_seg_exif l1 l2 payload rest hl1 hl2 hlen hc.2.1 hc.2.2
  · intro hc
    exact scanLoop_seg_plain m2 l1 l2 payload rest hm2 hsos hl1 hl2 hlen hc

/-- Witness for `claim7_routing`: the exactly-6-byte signature payload
is copied unmodified. -/
theorem claim7_witness :
    scanLoop (255 :: 225 :: 0 :: 8 :: ([69, 120, 105, 102, 0, 0] ++ [])) =
      .ok ⟨[255, 225, 0, 8, 69, 120, 105, 102, 0, 0], false, 0⟩ := by
  have h := (claim7_routing 225 0 8 [69, 120, 105, 102, 0, 0] []
    (by decide) (by decide) (by decide) (by decide) (by decide)).2 (by decide)
  rw [h]
  rfl

/-! Claim C10 -/

/-- C10: a length field below 2 is not rejected as a format error: the
attempted payload size is `(L - 2) mod 2^16` (65534 for L = 0, 65535
for L = 1); the segment read fails — with a generic error — exactly
when fewer bytes remain, and otherwise scanning consumes that many
payload bytes and proceeds. -/
theorem claim10_length_wraps (m2 l2 : Nat) (rest2 : List Nat)
    (hm2 : m2 < 256) (hsos : m2 ≠ 218) (hl2 : l2 < 2) :
    ((be16 0 l2 + 65534) % 65536 = 65534 + l2) ∧
    (rest2.length < 65534 + l2 →
      ExifRemoveThumbnailBytes (255 :: 216 :: 255 :: m2 :: 0 :: l2 :: rest2) =
        .error (.generic (if rest2.isEmpty then "failed to read segment data: EOF"
                          else "failed to read segment data: unexpected EOF"))) ∧
    (65534 + l2 ≤ rest2.length →
      ¬(65280 + m2 = 0xFFE1 ∧ (rest2.take (65534 + l2)).length > 6 ∧
          (rest2.take (65534 + l2)).take 6 = exifSig) →
      ExifRemoveThumbnailBytes (255 :: 216 :: 255 :: m2 :: 0 :: l2 :: rest2) =
        match scanLoop (rest2.drop (65534 + l2)) with
        | .error e => .error e
        | .ok o =>
          .ok (255 :: 216 :: 255 :: m2 :: 0 :: l2 :: (rest2.take (65534 + l2) ++ o.out),
            ⟨o.found, ((255 :: 216 :: 255 :: m2 :: 0 :: l2 :: rest2).length : Int),
             ((255 :: 216 :: 255 :: m2 :: 0 :: l2 ::
                (rest2.take (65534 + l2) ++ o.out)).length : Int),
             o.tsize⟩)) := by
  have hbe : be16 0 l2 = l2 := by unfold be16; omega
  have hmod : (be16 0 l2 + 65534) % 65536 = 65534 + l2 := by rw [hbe]; omega
  refine ⟨hmod, ?_, ?_⟩
  · intro hshort
    rw [ERTB_soi]
    rw [scanLoop_seg_trunc m2 0 l2 rest2 hm2 hsos (by rw [hbe]; omega)]
  · intro hfit hnr
    have hlen2 : (rest2.take (65534 + l2)).length = (be16 0 l2 + 65534) % 65536 := by
      rw [hmod, List.length_take]
      omega
    have hstep := scanLoop_seg_plain m2 0 l2 (rest2.take (65534 + l2))
      (rest2.drop (65534 + l2)) hm2 hsos (by omega) (by omega) hlen2 hnr
    rw [List.take_append_drop] at hstep
    rw [ERTB_soi, hstep]
    cases hrec : scanLoop (rest2.drop (65534 + l2)) with
    | error e => rfl
    | ok o => rfl

/-- Witness for `claim10_length_wraps`: length field 0 with no
remaining bytes attempts a 65534-byte read and fails generically. -/
theorem claim10_witness :
    ExifRemoveThumbnailBytes [255, 216, 255, 224, 0, 0] =
      .error (.generic "failed to read segment data: EOF") := by
  have h := (claim10_length_wraps 224 0 []
    (by decide) (by decide) (by decide)).2.1 (by decide)
  exact h

/-! Claim C8 -/

/-- Every successful scan is frame-preserving. -/
theorem frame_of_scanF : ∀ f l o, bytesOk l = true → scanLoopF f l = .ok o →
    FrameRel l o.out := by
  intro f
  induction f with
  | zero => intro l o hb h; simp [scanLoopF_zero] at h
  | succ f ih =>
    intro l o hb h
    match l with
    | [] =>
      rw [scanLoopF_nil, Except.ok.injEq] at h
      rw [← h]
      exact FrameRel.nil
    | [b] => simp [scanLoopF_one] at h
    | m1 :: m2 :: rest =>
      have hm1 : m1 < 256 := ((bytesOk_cons _ _).mp hb).1
      have hbr : bytesOk (m2 :: rest) = true := ((bytesOk_cons _ _).mp hb).2
      have hm2 : m2 < 256 := ((bytesOk_cons _ _).mp hbr).1
      have hbrest : bytesOk rest = true := ((bytesOk_cons _ _).mp hbr).2
      rw [scanLoopF_cons] at h
      dsimp only at h
      split at h
      · simp at h
      · next hband =>
        push_neg at hband
        have h255 : m1 = 255 := marker_high_byte m1 m2 hm1 hm2 hband
        subst h255
        split at h
        · next hsos =>
          rw [be16_marker m2 hm2] at hsos
          have hm : m2 = 218 := by omega
          subst hm
          rw [Except.ok.injEq] at h
          rw [← h]
          dsimp only
          rw [show putU16be (be16 255 218 % 65536) = [255, 218] from rfl]
          exact FrameRel.sos rest
        · next hnsos =>
          rw [be16_marker m2 hm2] at hnsos
          have hm2sos : m2 ≠ 218 := by omega
          rcases rest with _ | ⟨l1, _ | ⟨l2, rest2⟩⟩
          · simp at h
          · simp at h
          · have hl1 : l1 < 256 := ((bytesOk_cons _ _).mp hbrest).1
            have hbr2 : bytesOk (l2 :: rest2) = true := ((bytesOk_cons _ _).mp hbrest).2
            have hl2 : l2 < 256 := ((bytesOk_cons _ _).mp hbr2).1
            have hbrest2 : bytesOk rest2 = true := ((bytesOk_cons _ _).mp hbr2).2
            dsimp only at h
            split at h
            · simp at h
            · next hfit =>
              push_neg at hfit
              have hsegl : (rest2.take ((be16 l1 l2 % 65536 + 65534) % 65536)).length
                  = (be16 l1 l2 % 65536 + 65534) % 65536 := by
                rw [List.length_take]
                omega
              split at h
              · next hroute =>
                rw [be16_marker m2 hm2] at hroute
                have hm225 : m2 = 225 := by omega
                subst hm225
                cases hst : removeThumbnailFromExif
                    (rest2.take ((be16 l1 l2 % 65536 + 65534) % 65536)) with
                | error e => rw [hst] at h; simp at h
                | ok s =>
                  rw [hst] at h
                  dsimp only at h
                  cases hrec : scanLoopF f
                      (rest2.drop ((be16 l1 l2 % 65536 + 65534) % 65536)) with
                  | error e => rw [hrec] at h; simp at h
                  | ok o2 =>
                    rw [hrec] at h
                    dsimp only at h
                    rw [Except.ok.injEq] at h
                    rw [← h]
                    dsimp only
                    rw [show putU16be (be16 255 225 % 65536) = [255, 225] from rfl]
                    have hfr : FrameRel (rest2.drop ((be16 l1 l2 % 65536 + 65534) % 65536))
                        o2.out := ih _ o2 (bytesOk_drop _ _ hbrest2) hrec
                    have hshape := FrameRel.exif l1 l2
                      (rest2.take ((be16 l1 l2 % 65536 + 65534) % 65536))
                      (rest2.drop ((be16 l1 l2 % 65536 + 65534) % 65536)) o2.out s
                      hsegl hroute.2.1 hroute.2.2 hst hfr
                    rw [List.take_append_drop] at hshape
                    simpa using hshape
              · next hroute =>
                rw [be16_marker m2 hm2] at hroute
                cases hrec : scanLoopF f
                    (rest2.drop ((be16 l1 l2 % 65536 + 65534) % 65536)) with
                | error e => rw [hrec] at h; simp at h
                | ok o2 =>
                  rw [hrec] at h
                  dsimp only at h
                  rw [Except.ok.injEq] at h
                  rw [← h]
                  dsimp only
                  rw [be16_marker m2 hm2, putU16be_marker m2 hm2,
                      be16_small l1 l2 hl1 hl2, putU16be_be16 l1 l2 hl1 hl2]
                  have hfr : FrameRel (rest2.drop ((be16 l1 l2 % 65536 + 65534) % 65536))
                      o2.out := ih _ o2 (bytesOk_drop _ _ hbrest2) hrec
                  have hshape := FrameRel.plain m2 l1 l2
                    (rest2.take ((be16 l1 l2 % 65536 + 65534) % 65536))
                    (rest2.drop ((be16 l1 l2 % 65536 + 65534) % 65536)) o2.out
                    hm2sos hsegl hroute hfr
                  rw [List.take_append_drop] at hshape
                  simpa using hshape

/-- C8: on every success of `ExifRemoveThumbnailBytes` (over byte-valued
input), the output keeps the SOI bytes and is frame-related to the
input: every non-EXIF segment is copied verbatim (marker, original
length field, payload), the start-of-scan marker and all bytes after it
are copied verbatim, and only EXIF-routed segments are rewritten. -/
theorem claim8_frame (input out : List Nat) (r : RTResult)
    (hb : bytesOk input = true)
    (h : ExifRemoveThumbnailBytes input = .ok (out, r)) :
    out.take 2 = input.take 2 ∧ FrameRel (input.drop 2) (out.drop 2) := by
  unfold ExifRemoveThumbnailBytes at h
  split at h
  · simp at h
  · next hc =>
    push_neg at hc
    cases hs : scanLoop (input.drop 2) with
    | error e => rw [hs] at h; simp at h
    | ok o =>
      rw [hs] at h
      dsimp only at h
      rw [Except.ok.injEq, Prod.mk.injEq] at h
      have hout : input.take 2 ++ o.out = out := h.1
      have htl : (input.take 2).length = 2 := by
        rw [List.length_take]
        omega
      constructor
      · rw [← hout]
        rw [List.take_append_eq_append_take, htl]
        simp
      · rw [← hout, List.drop_left' htl]
        exact frame_of_scanF _ _ o (bytesOk_drop _ _ hb) hs

/-- Witness for `claim8_frame` at a concrete JPEG with an EXIF segment
and a start-of-scan tail. -/
theorem claim8_witness :
    ([255, 216, 255, 224, 0, 3, 9, 255, 218, 4, 5] : List Nat).take 2 =
      ([255, 216, 255, 224, 0, 3, 9, 255, 218, 4, 5] : List Nat).take 2 ∧
    FrameRel (([255, 216, 255, 224, 0, 3, 9, 255, 218, 4, 5] : List Nat).drop 2)
      (([255, 216, 255, 224, 0, 3, 9, 255, 218, 4, 5] : List Nat).drop 2) := by
  have h := claim8_frame [255, 216, 255, 224, 0, 3, 9, 255, 218, 4, 5]
    [255, 216, 255, 224, 0, 3, 9, 255, 218, 4, 5] ⟨false, 11, 11, 0⟩
    (by decide) (by rfl)
  exact h

end ExifRT
